import Mathlib

/-!
# Verification of `streamcorpus._chunk`

Shallow embedding of `src/py/src/streamcorpus/_chunk.py`, a reader/writer
for batches of Thrift messages stored in flat files, plus the companion
compress/encrypt pipeline functions `compress_and_encrypt` and
`decrypt_and_uncompress`.

Modelling conventions:
* bytes are `List Nat`;
* the Thrift wire codec (`msg.write(protocol)` / `msg.read(protocol)`) is an
  external library; it is abstracted as a `Codec` record whose laws are
  hypotheses where a claim needs them, exactly the contract the source relies
  on (decoding a serialized message consumes it and returns the rest,
  decoding at end of stream raises `EOFError`, encodings are nonempty);
* the MD5 accumulator of `md5_file` is represented by the exact sequence of
  bytes fed into `hashlib.md5().update`; since MD5 is a function of its
  input, digest equality statements are phrased over an arbitrary
  `md5hex : List Nat → String` applied to that input;
* Python `AssertionError` raised by a mode-guard assert is the
  `InvalidModeError` of the design documents;
* external subprocesses (`xz`, `gpg`, `xzcat`) are parameters: each call
  either returns `(stdout, stderr)` or raises (tool missing, etc.),
  modelled by `Except`.
-/

namespace StreamCorpus

/-- Open mode of a `Chunk`: the three members of `allowed_modes`
(`'wb'`, `'ab'`, `'rb'`). -/
inductive Mode
  | wb
  | ab
  | rb
deriving DecidableEq, Repr

/-- Errors raised by `Chunk` operations.  `invalidMode` is the
`AssertionError` of the mode-guard asserts in `add` and `__iter__`
(the `InvalidModeError` of the design documents). -/
inductive ChunkError
  | invalidMode
deriving DecidableEq, Repr

/-- The external message codec: `encode` is `msg.write(protocol)` serialising
one message onto the transport, `decode` is `msg.read(protocol)` reading one
message from the front of the remaining bytes (`none` models `EOFError` at
end of stream). -/
structure Codec (M : Type) where
  encode : M → List Nat
  decode : List Nat → Option (M × List Nat)

/-- State of a `Chunk` instance.  Both the output side (`_o_*`) and the
input side (`_i_*`) of the Python object are present; the unused side stays
at its `None`-like defaults, as in `__init__`.

* `frozen` is `_md5_hexdigest`, holding (as md5 input bytes) the digest
  frozen by `close()`;
* `oAttached` is `_o_chunk_fh is not None`; `oProto` is
  `_o_protocol is not None` (note `close()` clears only the former);
* `oFed` is the byte sequence fed to the output `md5_file`'s md5 state;
* `oStore` is the content of the underlying output byte store;
* `oBuf` is the write buffer of the output `TBufferedTransport`
  (bytes written by `add` sit here until `close()` flushes);
* `oUnderlyingClosed` records that `close()` closed the underlying handle;
* `iAttached` is `_i_chunk_fh is not None`; `iFed`, `iStore`, `iPos` are
  the input `md5_file`'s md5 input, the underlying input store and its
  read position; `iSeekable` is whether `seek(0)` succeeds (`IOError`
  from a pipe source is swallowed by `__iter__`). -/
structure Chunk (M : Type) where
  mode : Mode
  count : Nat
  frozen : Option (List Nat)
  oAttached : Bool
  oProto : Bool
  oFed : List Nat
  oStore : List Nat
  oBuf : List Nat
  oUnderlyingClosed : Bool
  iAttached : Bool
  iFed : List Nat
  iStore : List Nat
  iPos : Nat
  iSeekable : Bool
deriving DecidableEq, Repr

/-- Constructor branch `Chunk()` with no arguments: the default branch of `__init__` creates an
in-memory `StringIO` output buffer and forces `mode = 'wb'`, wiring up the
output `md5_file`, buffered transport and protocol. -/
def Chunk.new (M : Type) : Chunk M :=
  { mode := .wb
  , count := 0
  , frozen := none
  , oAttached := true
  , oProto := true
  , oFed := []
  , oStore := []
  , oBuf := []
  , oUnderlyingClosed := false
  , iAttached := false
  , iFed := []
  , iStore := []
  , iPos := 0
  , iSeekable := true }

/-- Constructor branch `Chunk(data=data, mode='rb')`: the data is wrapped in a `StringIO`
seeked to 0 and the input side (`_i_chunk_fh` as an `md5_file`) is wired
up.  A `StringIO` source is seekable. -/
def Chunk.fromData (M : Type) (data : List Nat) : Chunk M :=
  { mode := .rb
  , count := 0
  , frozen := none
  , oAttached := false
  , oProto := false
  , oFed := []
  , oStore := []
  , oBuf := []
  , oUnderlyingClosed := false
  , iAttached := true
  , iFed := []
  , iStore := data
  , iPos := 0
  , iSeekable := true }

/-- Constructor branch `Chunk(data=data, mode='ab')`: a fresh `StringIO` is created and the
existing data written into it *before* the `md5_file` wrapping, so the
underlying store holds `data` but the output md5 state has seen nothing. -/
def Chunk.fromDataAppend (M : Type) (data : List Nat) : Chunk M :=
  { mode := .ab
  , count := 0
  , frozen := none
  , oAttached := true
  , oProto := true
  , oFed := []
  , oStore := data
  , oBuf := []
  , oUnderlyingClosed := false
  , iAttached := false
  , iFed := []
  , iStore := []
  , iPos := 0
  , iSeekable := true }

/-- Method `Chunk.add(msg)`: `assert self._o_protocol` (an `InvalidModeError` when
it fails), then `msg.write(self._o_protocol)` — the serialized bytes land in
the buffered transport's write buffer — then `self._count += 1`. -/
def Chunk.add {M : Type} (C : Codec M) (c : Chunk M) (msg : M) :
    Except ChunkError (Chunk M) :=
  if c.oProto then
    .ok { c with oBuf := c.oBuf ++ C.encode msg, count := c.count + 1 }
  else
    .error .invalidMode

/-- Method `Chunk.close()`: if `_o_chunk_fh is not None`, flush the buffered
transport (pushing the write buffer through the `md5_file` into the
underlying store), close the underlying handle, store the frozen
`md5_hexdigest` and set `_o_chunk_fh = None`; otherwise do nothing.
`_o_protocol` is left in place. -/
def Chunk.close {M : Type} (c : Chunk M) : Chunk M :=
  if c.oAttached then
    { c with
      oFed := c.oFed ++ c.oBuf
      oStore := c.oStore ++ c.oBuf
      oBuf := []
      oUnderlyingClosed := true
      frozen := some (c.oFed ++ c.oBuf)
      oAttached := false }
  else c

/-- Property `Chunk.md5_hexdigest`: the frozen digest if `close()` set it,
else the live digest of the output `md5_file` if attached, else of the input
`md5_file` if attached, else `None`.  The value is represented by the md5
input bytes; apply any `md5hex` function to recover the hex string. -/
def Chunk.md5_hexdigest {M : Type} (c : Chunk M) : Option (List Nat) :=
  match c.frozen with
  | some d => some d
  | none =>
    if c.oAttached then some c.oFed
    else if c.iAttached then some c.iFed
    else none

/-- Method `Chunk.__len__`: the running record counter `_count`. -/
def Chunk.length {M : Type} (c : Chunk M) : Nat := c.count

/-- The read loop of `Chunk.__iter__`: repeatedly construct a fresh message
and `msg.read(i_protocol)` until `EOFError`.  `fuel` bounds the loop for
termination; callers pass more fuel than the byte count, which suffices
because every decoded message consumes at least one byte. -/
def parseAll {M : Type} (C : Codec M) : Nat → List Nat → List M
  | 0, _ => []
  | fuel + 1, bs =>
    match C.decode bs with
    | none => []
    | some (m, rest) => m :: parseAll C fuel rest

/-- Generator `Chunk.__iter__`, run to completion: `assert self._i_chunk_fh`
(`InvalidModeError` when absent); `seek(0)` when the source is seekable
(`IOError` from a pipe is swallowed, leaving the position); wrap in a fresh
buffered transport and read messages until `EOFError`, incrementing
`_count` once per message.  The buffered transport drains the remaining
store bytes through the input `md5_file`, and the read position ends at the
end of the store. -/
def Chunk.iterate {M : Type} (C : Codec M) (c : Chunk M) :
    Except ChunkError (List M × Chunk M) :=
  if c.iAttached then
    let start := if c.iSeekable then 0 else c.iPos
    let rest := c.iStore.drop start
    let msgs := parseAll C (rest.length + 1) rest
    .ok (msgs,
      { c with
        count := c.count + msgs.length
        iPos := c.iStore.length
        iFed := c.iFed ++ rest })
  else
    .error .invalidMode

/-- Repeated `add` applied to each message of a list in order. -/
def Chunk.addMany {M : Type} (C : Codec M) (c : Chunk M) (msgs : List M) :
    Except ChunkError (Chunk M) :=
  msgs.foldlM (fun c m => Chunk.add C c m) c

/-- Construct a write-mode `Chunk()`, `add` every message, then `close()`. -/
def writeAll {M : Type} (C : Codec M) (msgs : List M) :
    Except ChunkError (Chunk M) :=
  (Chunk.addMany C (Chunk.new M) msgs).map Chunk.close

/-- Full `__iter__` passes run `k` times in sequence on the same chunk. -/
def Chunk.iterateN {M : Type} (C : Codec M) : Nat → Chunk M →
    Except ChunkError (Chunk M)
  | 0, c => .ok c
  | k + 1, c => (Chunk.iterate C c).bind fun p => Chunk.iterateN C k p.2

/-! ## TransformPipeline: `compress_and_encrypt` / `decrypt_and_uncompress`

The external tools are parameters.  A subprocess invocation (`Popen` +
`communicate`) either returns `(stdout, stderr)` — modelled `.ok` — or
raises a Python exception such as `OSError` when the binary is missing —
modelled `.error` with a message.  `assert not errors, errors` after an
`xz` stage is the fatal-diagnostic check.  Filesystem side effects on the
scratch gpg home directory (`os.makedirs(gpg_dir)` / `shutil.rmtree`) are
recorded as an event trace accompanying the result; when a stage raises,
the trace stops at the events already performed, since the functions have
no `try`/`finally`. -/

/-- A filesystem event on the scratch gpg home directory. -/
inductive FsEvent
  | mkdirScratch
  | rmtreeScratch
deriving DecidableEq, Repr

/-- How a pipeline call terminates abnormally: a subprocess invocation
raised (carrying its message), or an `assert not errors, errors` fired on
a fatal stage diagnostic (carrying the stderr text). -/
inductive PipelineError
  | raised (msg : String)
  | assertionFailed (stderr : String)
deriving DecidableEq, Repr

/-- Function `compress_and_encrypt(data, gpg_public, gpg_recipient)`.

* `xzCompress` is the `xz --compress` child: data to `(stdout, stderr)`;
* `gpgImport` is the `gpg --import` child run in the fresh home directory:
  key material to stderr text;
* `gpgEncrypt` is the `gpg --encrypt` child using the imported public key
  and the recipient name: data to `(stdout, stderr)`.

Returns the Python result (`(_errors, data)` or the propagated exception)
paired with the scratch-directory event trace. -/
def compress_and_encrypt
    (xzCompress : List Nat → Except String (List Nat × String))
    (gpgImport : String → Except String String)
    (gpgEncrypt : String → String → List Nat → Except String (List Nat × String))
    (data : List Nat) (gpg_public : Option String) (gpg_recipient : String) :
    Except PipelineError (List String × List Nat) × List FsEvent :=
  match xzCompress data with
  | .error e => (.error (.raised e), [])
  | .ok (compressed, xzErrors) =>
    if xzErrors ≠ "" then (.error (.assertionFailed xzErrors), [])
    else
      match gpg_public with
      | none => (.ok ([], compressed), [])
      | some pub =>
        match gpgImport pub with
        | .error e => (.error (.raised e), [.mkdirScratch])
        | .ok importErrors =>
          let log1 :=
            if importErrors ≠ "" then
              ["gpg logs to stderr, read carefully:\n\n" ++ importErrors]
            else []
          match gpgEncrypt pub gpg_recipient compressed with
          | .error e => (.error (.raised e), [.mkdirScratch])
          | .ok (encrypted, encErrors) =>
            let log2 := log1 ++ (if encErrors ≠ "" then [encErrors] else [])
            (.ok (log2, encrypted), [.mkdirScratch, .rmtreeScratch])

/-- Function `decrypt_and_uncompress(data, gpg_private)`.

* `gpgImport` is the `gpg --import` child in the fresh home directory;
* `gpgDecrypt` is the `gpg --decrypt` child using the imported private key;
* `xzDecompress` is the `xz --decompress` child.

Mirror order of `compress_and_encrypt`: gpg stage first (when key material
is supplied; `shutil.rmtree` runs right after its `communicate` returns),
then the xz stage with its fatal `assert not errors, errors`. -/
def decrypt_and_uncompress
    (gpgImport : String → Except String String)
    (gpgDecrypt : String → List Nat → Except String (List Nat × String))
    (xzDecompress : List Nat → Except String (List Nat × String))
    (data : List Nat) (gpg_private : Option String) :
    Except PipelineError (List String × List Nat) × List FsEvent :=
  match gpg_private with
  | none =>
    (match xzDecompress data with
     | .error e => .error (.raised e)
     | .ok (decompressed, xzErrors) =>
       if xzErrors ≠ "" then .error (.assertionFailed xzErrors)
       else .ok ([], decompressed), [])
  | some priv =>
    match gpgImport priv with
    | .error e => (.error (.raised e), [.mkdirScratch])
    | .ok importErrors =>
      let log1 :=
        if importErrors ≠ "" then
          ["gpg logs to stderr, read carefully:\n\n" ++ importErrors]
        else []
      match gpgDecrypt priv data with
      | .error e => (.error (.raised e), [.mkdirScratch])
      | .ok (decrypted, decErrors) =>
        let log2 := log1 ++ (if decErrors ≠ "" then [decErrors] else [])
        (match xzDecompress decrypted with
         | .error e => .error (.raised e)
         | .ok (decompressed, xzErrors) =>
           if xzErrors ≠ "" then .error (.assertionFailed xzErrors)
           else .ok (log2, decompressed),
         [.mkdirScratch, .rmtreeScratch])

/-- A well-behaved external transform: applies a pure function, writes
nothing to stderr, never raises. -/
def cleanStage (f : List Nat → List Nat) :
    List Nat → Except String (List Nat × String) :=
  fun b => .ok (f b, "")

/-- A gpg key import that succeeds silently. -/
def cleanImport : String → Except String String := fun _ => .ok ""

/-- A well-behaved encryption child: applies a pure function of the data,
silent on stderr, never raises. -/
def cleanEncrypt (f : List Nat → List Nat) :
    String → String → List Nat → Except String (List Nat × String) :=
  fun _ _ b => .ok (f b, "")

/-- A well-behaved decryption child: applies a pure function of the data,
silent on stderr, never raises. -/
def cleanDecrypt (f : List Nat → List Nat) :
    String → List Nat → Except String (List Nat × String) :=
  fun _ b => .ok (f b, "")

/-! ## The path branch of `Chunk.__init__` (lines 135–160)

The filesystem is abstracted to the two facts the branch inspects:
whether `os.path.exists(path)` and whether `path.endswith('.xz')`. -/

/-- The read/write source that the path branch of `__init__` wires up as
`file_obj`. -/
inductive FileSource
  | xzcatPipe
  | diskFile (mode : Mode)
deriving DecidableEq, Repr

/-- Whether the source hands framing a fully materialised in-memory buffer.
The stdout pipe of the `xzcat` child does not: its bytes are produced and
consumed on demand while the framing layer reads.  A plain `open(path,
mode)` file is read incrementally from disk. -/
def FileSource.fullyBufferedBeforeFraming : FileSource → Bool
  | .xzcatPipe => false
  | .diskFile _ => false

/-- Whether `seek(0)` works on the source (a pipe raises `IOError`). -/
def FileSource.seekableSource : FileSource → Bool
  | .xzcatPipe => false
  | .diskFile _ => true

/-- Whether the source was produced by a call to the
`decrypt_and_uncompress` pipeline entry point.  The path branch of
`__init__` spawns `xzcat` directly and never calls the pipeline. -/
def FileSource.viaDecryptAndUncompress : FileSource → Bool
  | .xzcatPipe => false
  | .diskFile _ => false

/-- Failures (assert violations) of the path branch of `__init__`. -/
inductive InitError
  | wouldOverwriteExisting (m : Mode)
  | xzRequiresRead (m : Mode)
  | missingFileForRead (m : Mode)
deriving DecidableEq, Repr

/-- The path branch of `Chunk.__init__`: given whether the file exists and
whether the path ends in `.xz`, decide which `file_obj` is attached (or
which assert fires).  Mirrors lines 135–160 of the source. -/
def chunkInitPath (pathExists endsWithXz : Bool) (mode : Mode) :
    Except InitError FileSource :=
  if pathExists then
    if mode = .rb ∨ mode = .ab then
      if endsWithXz then
        if mode = .rb then .ok .xzcatPipe
        else .error (.xzRequiresRead mode)
      else .ok (.diskFile mode)
    else .error (.wouldOverwriteExisting mode)
  else
    if mode = .wb ∨ mode = .ab then .ok (.diskFile mode)
    else .error (.missingFileForRead mode)

/-- Concrete codec used by witnesses and counterexamples: a message is a
natural number, encoded as a tag byte `1` followed by the value. -/
def natCodec : Codec Nat :=
  { encode := fun n => [1, n]
  , decode := fun bs =>
      match bs with
      | x :: y :: rest => if x = 1 then some (y, rest) else none
      | _ => none }

/-! ## Helper lemmas -/

/-- `close` never changes `_o_protocol`. -/
theorem close_oProto {M : Type} (c : Chunk M) :
    (Chunk.close c).oProto = c.oProto := by
  unfold Chunk.close
  by_cases h : c.oAttached <;> simp [h]

/-- Composing `close` with itself: the second call sees
`_o_chunk_fh = None` and does nothing. -/
theorem close_close {M : Type} (c : Chunk M) :
    Chunk.close (Chunk.close c) = Chunk.close c := by
  unfold Chunk.close
  by_cases h : c.oAttached <;> simp [h]

/-! ## Claims -/

/-- C7: `add()` on a read-mode Chunk fails with `InvalidModeError` (the
mode-guard assert fires before anything is written or counted), and
beginning iteration on a write-mode or append-mode Chunk fails with
`InvalidModeError` and yields no messages. -/
theorem C7_mode_enforcement {M : Type} (C : Codec M) (d e : List Nat) (m : M) :
    Chunk.add C (Chunk.fromData M d) m = .error .invalidMode ∧
    Chunk.iterate C (Chunk.new M) = .error .invalidMode ∧
    Chunk.iterate C (Chunk.fromDataAppend M e) = .error .invalidMode :=
  ⟨rfl, rfl, rfl⟩

/-- C8: `close()` is idempotent — a second call produces no additional
observable effect: the whole state, hence the record count, the underlying
store contents, and the (pure) `md5_hexdigest` value, are unchanged from
the state after the first `close()`. -/
theorem C8_close_idempotent {M : Type} (c : Chunk M) :
    Chunk.close (Chunk.close c) = Chunk.close c ∧
    (Chunk.close (Chunk.close c)).count = (Chunk.close c).count ∧
    (Chunk.close (Chunk.close c)).oStore = (Chunk.close c).oStore ∧
    Chunk.md5_hexdigest (Chunk.close (Chunk.close c)) =
      Chunk.md5_hexdigest (Chunk.close c) :=
  ⟨close_close c, by rw [close_close], by rw [close_close], by rw [close_close]⟩

/-- C3 counterexample: on a write-mode Chunk that has been closed, a
subsequent `add()` does **not** fail with `InvalidModeError`: the guard
checks `_o_protocol`, which `close()` leaves in place, so the call succeeds
and the record count rises from 1 to 2 (the bytes go only into the
transport's write buffer; the closed store is unchanged). -/
theorem C3_counterexample :
    ∃ c1 c2 : Chunk Nat,
      Chunk.add natCodec (Chunk.new Nat) 5 = .ok c1 ∧
      Chunk.add natCodec (Chunk.close c1) 7 = .ok c2 ∧
      c2.count = 2 ∧ c2.oStore = (Chunk.close c1).oStore :=
  ⟨_, _, rfl, rfl, rfl, rfl⟩

/-- C3 (amended): after `close()` on a Chunk whose output protocol is wired
up (any write- or append-mode Chunk), `add(message)` is still accepted: it
returns successfully, increments the record count, and writes only to the
buffered transport (the underlying store is unchanged and, the transport
never being flushed again, the message bytes are silently lost). -/
theorem C3_amended {M : Type} (C : Codec M) (c : Chunk M) (m : M)
    (h : c.oProto = true) :
    ∃ c' : Chunk M,
      Chunk.add C (Chunk.close c) m = .ok c' ∧
      c'.count = (Chunk.close c).count + 1 ∧
      c'.oStore = (Chunk.close c).oStore := by
  have hp : (Chunk.close c).oProto = true := by rw [close_oProto, h]
  exact ⟨{ Chunk.close c with
           oBuf := (Chunk.close c).oBuf ++ C.encode m
           count := (Chunk.close c).count + 1 },
         by simp [Chunk.add, hp], rfl, rfl⟩

/-- Witness for C3 (amended) at the concrete chunk `Chunk()` after one
`close()`. -/
theorem C3_amended_witness :
    (Chunk.new Nat).oProto = true ∧
    ∃ c' : Chunk Nat,
      Chunk.add natCodec (Chunk.close (Chunk.new Nat)) 11 = .ok c' ∧
      c'.count = (Chunk.close (Chunk.new Nat)).count + 1 ∧
      c'.oStore = (Chunk.close (Chunk.new Nat)).oStore :=
  ⟨rfl, C3_amended natCodec (Chunk.new Nat) 11 rfl⟩

/-- C5: with an existing path ending in `.xz`, mode must be read (`'wb'`
and `'ab'` are rejected by asserts), and the attached source is the stdout
pipe of a directly spawned `xzcat` child — a non-seekable stream consumed
on demand during framing, not a buffer fully decompressed into memory
beforehand, and not the result of the `decrypt_and_uncompress` pipeline
entry point. -/
theorem C5_xz_path :
    chunkInitPath true true Mode.rb = .ok FileSource.xzcatPipe ∧
    chunkInitPath true true Mode.wb =
      .error (.wouldOverwriteExisting Mode.wb) ∧
    chunkInitPath true true Mode.ab = .error (.xzRequiresRead Mode.ab) ∧
    FileSource.fullyBufferedBeforeFraming FileSource.xzcatPipe = false ∧
    FileSource.seekableSource FileSource.xzcatPipe = false ∧
    FileSource.viaDecryptAndUncompress FileSource.xzcatPipe = false := by
  refine ⟨?_, ?_, ?_, rfl, rfl, rfl⟩ <;> simp [chunkInitPath]

/-- C6 counterexample: when the encryption (resp. decryption) stage's
subprocess invocation raises — e.g. the gpg binary is missing — the call
propagates the exception after `os.makedirs(gpg_dir)` but before
`shutil.rmtree`, so the scratch key-store directory is **not** removed on
that exit path: the event trace holds the `mkdir` but no `rmtree`. -/
theorem C6_counterexample :
    (compress_and_encrypt (cleanStage id) cleanImport
        (fun _ _ _ => .error "OSError: gpg not found")
        [1, 2] (some "PUBKEY") "trec-kba").2 = [FsEvent.mkdirScratch] ∧
    (decrypt_and_uncompress cleanImport
        (fun _ _ => .error "OSError: gpg not found") (cleanStage id)
        [1, 2] (some "PRIVKEY")).2 = [FsEvent.mkdirScratch] :=
  ⟨rfl, rfl⟩

/-- C6 (amended): the scratch key-store directory is removed whenever the
key-import and encrypt/decrypt subprocess invocations return (normal
completion, including when they write diagnostics to stderr): on every
such path the event trace is either empty (no key material, or the call
failed before the directory was created) or exactly `mkdir` followed by
`rmtree`.  When a stage invocation raises, the directory is leaked — the
cleanup is a straight-line `shutil.rmtree(..., ignore_errors=True)`, not a
guaranteed-cleanup (`try`/`finally`) mechanism. -/
theorem C6_amended
    (xzC xzD : List Nat → Except String (List Nat × String))
    (gpgI : String → Except String String)
    (gpgE : String → String → List Nat → Except String (List Nat × String))
    (gpgD : String → List Nat → Except String (List Nat × String))
    (data : List Nat) (pub priv rcpt : String)
    (hI : ∀ k, ∃ d, gpgI k = .ok d)
    (hE : ∀ k r b, ∃ o d, gpgE k r b = .ok (o, d))
    (hD : ∀ k b, ∃ o d, gpgD k b = .ok (o, d)) :
    ((compress_and_encrypt xzC gpgI gpgE data (some pub) rcpt).2 = [] ∨
     (compress_and_encrypt xzC gpgI gpgE data (some pub) rcpt).2 =
       [FsEvent.mkdirScratch, FsEvent.rmtreeScratch]) ∧
    (decrypt_and_uncompress gpgI gpgD xzD data (some priv)).2 =
       [FsEvent.mkdirScratch, FsEvent.rmtreeScratch] := by
  constructor
  · unfold compress_and_encrypt
    obtain ⟨dI, hdI⟩ := hI pub
    rcases hxz : xzC data with e | ⟨comp, xzErr⟩
    · simp
    · obtain ⟨o, d, hod⟩ := hE pub rcpt comp
      by_cases hx : xzErr = "" <;> simp [hx, hdI, hod]
  · unfold decrypt_and_uncompress
    obtain ⟨dI, hdI⟩ := hI priv
    obtain ⟨o, d, hod⟩ := hD priv data
    rcases hxz : xzD o with e | ⟨dec, xzErr⟩ <;> simp [hdI, hod, hxz]

/-- Witness for C6 (amended) with concrete silent stages. -/
theorem C6_amended_witness :
    (∀ k, ∃ d, cleanImport k = .ok d) ∧
    (∀ k r b, ∃ o d, cleanEncrypt id k r b = .ok (o, d)) ∧
    (∀ k b, ∃ o d, cleanDecrypt id k b = .ok (o, d)) ∧
    (((compress_and_encrypt (cleanStage id) cleanImport (cleanEncrypt id)
        [3] (some "PUB") "trec-kba").2 = [] ∨
      (compress_and_encrypt (cleanStage id) cleanImport (cleanEncrypt id)
        [3] (some "PUB") "trec-kba").2 =
        [FsEvent.mkdirScratch, FsEvent.rmtreeScratch]) ∧
     (decrypt_and_uncompress cleanImport (cleanDecrypt id) (cleanStage id)
        [3] (some "PRIV")).2 =
        [FsEvent.mkdirScratch, FsEvent.rmtreeScratch]) :=
  ⟨fun _ => ⟨"", rfl⟩, fun _ _ b => ⟨b, "", rfl⟩, fun _ b => ⟨b, "", rfl⟩,
   C6_amended (cleanStage id) (cleanStage id) cleanImport (cleanEncrypt id)
     (cleanDecrypt id) [3] "PUB" "PRIV" "trec-kba"
     (fun _ => ⟨"", rfl⟩) (fun _ _ b => ⟨b, "", rfl⟩) (fun _ b => ⟨b, "", rfl⟩)⟩

/-- C2: pipeline round trip.  With external transforms that invert each
other (`decomp ∘ comp = id` for the xz pair, `decr ∘ encr = id` for the gpg
pair under the matching key material), the bytes component of
`decrypt_and_uncompress` applied to the bytes component of
`compress_and_encrypt data pub recipient` equals `data` for every byte
buffer (the empty buffer included, `data` being arbitrary); and with no
key material on either side, compress-then-decompress alone also returns
`data`. -/
theorem C2_pipeline_roundtrip
    (comp decomp encr decr : List Nat → List Nat)
    (hcd : ∀ b, decomp (comp b) = b)
    (hed : ∀ b, decr (encr b) = b)
    (data : List Nat) (pub priv rcpt : String) :
    (compress_and_encrypt (cleanStage comp) cleanImport (cleanEncrypt encr)
        data (some pub) rcpt).1 = .ok ([], encr (comp data)) ∧
    (decrypt_and_uncompress cleanImport (cleanDecrypt decr)
        (cleanStage decomp) (encr (comp data)) (some priv)).1 =
      .ok ([], data) ∧
    (compress_and_encrypt (cleanStage comp) cleanImport (cleanEncrypt encr)
        data none rcpt).1 = .ok ([], comp data) ∧
    (decrypt_and_uncompress cleanImport (cleanDecrypt decr)
        (cleanStage decomp) (comp data) none).1 = .ok ([], data) := by
  refine ⟨rfl, ?_, rfl, ?_⟩ <;>
    simp [decrypt_and_uncompress, cleanImport, cleanDecrypt, cleanStage,
      hcd, hed]

/-- Witness for C2 on the buffer `[7, 7]` (and, through the theorem's
universally quantified `data`, every other buffer) with concrete inverse
transform pairs. -/
theorem C2_pipeline_roundtrip_witness :
    (∀ b : List Nat, List.tail (0 :: b) = b) ∧
    (∀ b : List Nat, List.dropLast (b ++ [9]) = b) ∧
    ((compress_and_encrypt (cleanStage (fun b => 0 :: b)) cleanImport
        (cleanEncrypt (fun b => b ++ [9])) [7, 7] (some "PUB") "trec-kba").1 =
      .ok ([], (0 :: [7, 7]) ++ [9]) ∧
     (decrypt_and_uncompress cleanImport (cleanDecrypt List.dropLast)
        (cleanStage List.tail) ((0 :: [7, 7]) ++ [9]) (some "PRIV")).1 =
      .ok ([], [7, 7]) ∧
     (compress_and_encrypt (cleanStage (fun b => 0 :: b)) cleanImport
        (cleanEncrypt (fun b => b ++ [9])) [7, 7] none "trec-kba").1 =
      .ok ([], 0 :: [7, 7]) ∧
     (decrypt_and_uncompress cleanImport (cleanDecrypt List.dropLast)
        (cleanStage List.tail) (0 :: [7, 7]) none).1 = .ok ([], [7, 7])) :=
  ⟨fun _ => rfl, fun b => by simp,
   C2_pipeline_roundtrip (fun b => 0 :: b) List.tail (fun b => b ++ [9])
     List.dropLast (fun _ => rfl) (fun b => by simp) [7, 7] "PUB" "PRIV"
     "trec-kba"⟩

/-- C9: diagnostic severity.  Any stderr output from the xz compression
stage of `compress_and_encrypt` or the xz decompression stage of
`decrypt_and_uncompress` fires `assert not errors, errors` and the call
fails; stderr output from the gpg import and encryption/decryption stages
is non-fatal — the call succeeds and every such diagnostic is appended to
the returned list of strings (the import banner behind the fixed warning
text, the encrypt/decrypt stderr verbatim), returned alongside the
transformed bytes. -/
theorem C9_diagnostic_severity
    (gpgI : String → Except String String)
    (gpgE : String → String → List Nat → Except String (List Nat × String))
    (gpgD : String → List Nat → Except String (List Nat × String))
    (comp decomp : List Nat → List Nat)
    (out encB decB data : List Nat)
    (fatalDiag importDiag stageDiag : String)
    (hfatal : fatalDiag ≠ "")
    (pub priv rcpt : String) (k : Option String) :
    (compress_and_encrypt (fun _ => .ok (out, fatalDiag)) gpgI gpgE
        data k rcpt).1 = .error (.assertionFailed fatalDiag) ∧
    (decrypt_and_uncompress gpgI gpgD (fun _ => .ok (out, fatalDiag))
        data none).1 = .error (.assertionFailed fatalDiag) ∧
    (compress_and_encrypt (cleanStage comp) (fun _ => .ok importDiag)
        (fun _ _ _ => .ok (encB, stageDiag)) data (some pub) rcpt).1 =
      .ok ((if importDiag = "" then []
            else ["gpg logs to stderr, read carefully:\n\n" ++ importDiag]) ++
           (if stageDiag = "" then [] else [stageDiag]), encB) ∧
    (decrypt_and_uncompress (fun _ => .ok importDiag)
        (fun _ _ => .ok (decB, stageDiag)) (cleanStage decomp)
        data (some priv)).1 =
      .ok ((if importDiag = "" then []
            else ["gpg logs to stderr, read carefully:\n\n" ++ importDiag]) ++
           (if stageDiag = "" then [] else [stageDiag]), decomp decB) := by
  refine ⟨?_, ?_, ?_, ?_⟩
  · simp [compress_and_encrypt, hfatal]
  · simp [decrypt_and_uncompress, hfatal]
  · by_cases hi : importDiag = "" <;> by_cases hs : stageDiag = "" <;>
      simp [compress_and_encrypt, cleanStage, hi, hs]
  · by_cases hi : importDiag = "" <;> by_cases hs : stageDiag = "" <;>
      simp [decrypt_and_uncompress, cleanStage, hi, hs]

/-- Witness for C9 with concrete nonempty diagnostics on every stage. -/
theorem C9_diagnostic_severity_witness :
    ("xz: boom" : String) ≠ "" ∧
    ((compress_and_encrypt (fun _ => .ok ([2], "xz: boom")) cleanImport
        (cleanEncrypt id) [5] none "trec-kba").1 =
      .error (.assertionFailed "xz: boom") ∧
     (decrypt_and_uncompress cleanImport (cleanDecrypt id)
        (fun _ => .ok ([2], "xz: boom")) [5] none).1 =
      .error (.assertionFailed "xz: boom") ∧
     (compress_and_encrypt (cleanStage id) (fun _ => .ok "imported")
        (fun _ _ _ => .ok ([8], "banner")) [5] (some "PUB") "trec-kba").1 =
      .ok ((if ("imported" : String) = "" then []
            else ["gpg logs to stderr, read carefully:\n\n" ++ "imported"]) ++
           (if ("banner" : String) = "" then [] else ["banner"]), [8]) ∧
     (decrypt_and_uncompress (fun _ => .ok "imported")
        (fun _ _ => .ok ([8], "banner")) (cleanStage id)
        [5] (some "PRIV")).1 =
      .ok ((if ("imported" : String) = "" then []
            else ["gpg logs to stderr, read carefully:\n\n" ++ "imported"]) ++
           (if ("banner" : String) = "" then [] else ["banner"]), id [8])) :=
  ⟨by decide,
   C9_diagnostic_severity cleanImport (cleanEncrypt id) (cleanDecrypt id)
     id id [2] [8] [8] [5] "xz: boom" "imported" "banner" (by decide)
     "PUB" "PRIV" "trec-kba" none⟩

/-! ## Round-trip lemmas for C1, C4, C10 -/

/-- On any chunk whose output protocol is wired up, `addMany` succeeds,
appending each message's encoding to the transport buffer in order and
incrementing the count once per message. -/
theorem addMany_ok {M : Type} (C : Codec M) (msgs : List M) :
    ∀ (c : Chunk M), c.oProto = true →
    Chunk.addMany C c msgs =
      .ok { c with
            oBuf := c.oBuf ++ msgs.flatMap C.encode
            count := c.count + msgs.length } := by
  induction msgs with
  | nil =>
    intro c _
    simp only [Chunk.addMany, List.foldlM, List.flatMap_nil, List.append_nil,
      List.length_nil, Nat.add_zero]
    rfl
  | cons m ms ih =>
    intro c h
    have step : Chunk.add C c m =
        .ok { c with oBuf := c.oBuf ++ C.encode m, count := c.count + 1 } := by
      simp [Chunk.add, h]
    have hstep : Chunk.addMany C c (m :: ms) =
        (Chunk.add C c m).bind fun c' => Chunk.addMany C c' ms := rfl
    rw [hstep, step]
    show Chunk.addMany C
        { c with oBuf := c.oBuf ++ C.encode m, count := c.count + 1 } ms = _
    rw [ih { c with oBuf := c.oBuf ++ C.encode m, count := c.count + 1 } h]
    simp [List.append_assoc, Nat.add_comm, Nat.add_assoc, Nat.add_left_comm]

/-- The state produced by `Chunk()`, `add` over `msgs`, then `close()`:
the underlying store holds the concatenated encodings, the digest is frozen
over exactly those bytes, and the count equals the number of messages. -/
theorem writeAll_eq {M : Type} (C : Codec M) (msgs : List M) :
    writeAll C msgs =
      .ok { mode := .wb
          , count := msgs.length
          , frozen := some (msgs.flatMap C.encode)
          , oAttached := false
          , oProto := true
          , oFed := msgs.flatMap C.encode
          , oStore := msgs.flatMap C.encode
          , oBuf := []
          , oUnderlyingClosed := true
          , iAttached := false
          , iFed := []
          , iStore := []
          , iPos := 0
          , iSeekable := true } := by
  unfold writeAll
  rw [addMany_ok C msgs (Chunk.new M) rfl]
  show Except.ok (Chunk.close _) = _
  simp [Chunk.close, Chunk.new]

/-- Under the codec contract (decoding a serialized message consumes it,
decoding at end of input signals `EOFError`, encodings are nonempty), the
read loop applied to a concatenation of encodings recovers exactly the
encoded messages, for any fuel exceeding the byte count. -/
theorem parseAll_flatMap {M : Type} (C : Codec M)
    (hdec : ∀ m rest, C.decode (C.encode m ++ rest) = some (m, rest))
    (hnil : C.decode [] = none)
    (hne : ∀ m, C.encode m ≠ []) :
    ∀ (msgs : List M) (fuel : Nat),
      (msgs.flatMap C.encode).length < fuel →
      parseAll C fuel (msgs.flatMap C.encode) = msgs := by
  intro msgs
  induction msgs with
  | nil =>
    intro fuel hfuel
    match fuel, hfuel with
    | fuel + 1, _ => simp [parseAll, hnil]
  | cons m ms ih =>
    intro fuel hfuel
    have hcons : (m :: ms).flatMap C.encode =
        C.encode m ++ ms.flatMap C.encode := by simp
    have hlen : 1 ≤ (C.encode m).length := by
      rcases hE : C.encode m with _ | ⟨a, l⟩
      · exact absurd hE (hne m)
      · simp
    rw [hcons] at hfuel ⊢
    match fuel, hfuel with
    | fuel + 1, hfuel =>
      simp only [parseAll, hdec]
      rw [ih fuel (by rw [List.length_append] at hfuel; omega)]

/-- A full `__iter__` pass over any attached, seekable read chunk whose
store is a concatenation of encodings: it seeks to the start, yields the
encoded messages in order, adds their number to the running count, and
leaves the store, attachment and seekability unchanged. -/
theorem iterate_store {M : Type} (C : Codec M)
    (hdec : ∀ m rest, C.decode (C.encode m ++ rest) = some (m, rest))
    (hnil : C.decode [] = none)
    (hne : ∀ m, C.encode m ≠ [])
    (msgs : List M) (c : Chunk M)
    (hA : c.iAttached = true) (hS : c.iSeekable = true)
    (hStore : c.iStore = msgs.flatMap C.encode) :
    Chunk.iterate C c =
      .ok (msgs,
        { c with
          count := c.count + msgs.length
          iPos := c.iStore.length
          iFed := c.iFed ++ c.iStore }) := by
  have hP : parseAll C ((msgs.flatMap C.encode).length + 1)
      (msgs.flatMap C.encode) = msgs :=
    parseAll_flatMap C hdec hnil hne msgs _ (Nat.lt_succ_self _)
  unfold Chunk.iterate
  have hP2 := hP
  simp only [List.length_flatMap] at hP2
  simp [hA, hS, hStore, hP2]

/-! ## Claims C1, C4, C10 -/

/-- C1: round trip.  Under the codec contract, building a write-mode
`Chunk()`, calling `add` on each of the `N` messages, calling `close()`,
then reopening the resulting byte store with `Chunk(data=store, mode='rb')`
and iterating yields exactly those `N` messages in their original order,
and `len()` of the read chunk after the full iteration equals `N`. -/
theorem C1_roundtrip {M : Type} (C : Codec M)
    (hdec : ∀ m rest, C.decode (C.encode m ++ rest) = some (m, rest))
    (hnil : C.decode [] = none)
    (hne : ∀ m, C.encode m ≠ [])
    (msgs : List M) :
    ∃ w r : Chunk M,
      writeAll C msgs = .ok w ∧
      Chunk.iterate C (Chunk.fromData M w.oStore) = .ok (msgs, r) ∧
      r.length = msgs.length := by
  refine ⟨_, _, writeAll_eq C msgs,
    iterate_store C hdec hnil hne msgs
      (Chunk.fromData M (msgs.flatMap C.encode)) rfl rfl rfl, ?_⟩
  simp [Chunk.length, Chunk.fromData]

/-- Witness for C1: two messages through the concrete `natCodec`. -/
theorem C1_roundtrip_witness :
    (∀ (m : Nat) (rest : List Nat),
      natCodec.decode (natCodec.encode m ++ rest) = some (m, rest)) ∧
    natCodec.decode [] = none ∧
    (∀ m : Nat, natCodec.encode m ≠ []) ∧
    (∃ w r : Chunk Nat,
      writeAll natCodec [3, 9] = .ok w ∧
      Chunk.iterate natCodec (Chunk.fromData Nat w.oStore) = .ok ([3, 9], r) ∧
      r.length = 2) :=
  ⟨fun m rest => by simp [natCodec], rfl, fun m => by simp [natCodec],
   C1_roundtrip natCodec (fun m rest => by simp [natCodec]) rfl
     (fun m => by simp [natCodec]) [3, 9]⟩

/-- C4: digest correctness.  For the write-mode chunk obtained by `add`
over any message list then `close()`, the frozen `md5_hexdigest` is the
digest of exactly the bytes of the resulting underlying store — so for
every independent digest function `md5hex` of the raw bytes the two hex
strings agree — and the empty chunk's store is empty with digest equal to
the digest of the empty byte sequence. -/
theorem C4_digest {M : Type} (C : Codec M) (msgs : List M)
    (md5hex : List Nat → String) :
    ∃ w we : Chunk M,
      writeAll C msgs = .ok w ∧
      Chunk.md5_hexdigest w = some w.oStore ∧
      Option.map md5hex (Chunk.md5_hexdigest w) = some (md5hex w.oStore) ∧
      writeAll C [] = .ok we ∧
      we.oStore = [] ∧
      Chunk.md5_hexdigest we = some [] := by
  refine ⟨_, _, writeAll_eq C msgs, ?_, ?_, writeAll_eq C [], ?_, ?_⟩ <;>
    simp [Chunk.md5_hexdigest]

/-- C10: the record counter of a seekable read-mode chunk is never reset
by starting a new iteration: each full pass over a store holding `N`
encoded messages rewinds to the start and adds `N` to the counter, so
after `k` complete passes `len()` returns `k * N`. -/
theorem C10_counter_accumulates {M : Type} (C : Codec M)
    (hdec : ∀ m rest, C.decode (C.encode m ++ rest) = some (m, rest))
    (hnil : C.decode [] = none)
    (hne : ∀ m, C.encode m ≠ [])
    (msgs : List M) (k : Nat) :
    ∃ c' : Chunk M,
      Chunk.iterateN C k (Chunk.fromData M (msgs.flatMap C.encode)) =
        .ok c' ∧
      c'.length = k * msgs.length := by
  suffices h : ∀ (k : Nat) (c : Chunk M), c.iAttached = true →
      c.iSeekable = true → c.iStore = msgs.flatMap C.encode →
      ∃ c', Chunk.iterateN C k c = .ok c' ∧
        c'.count = c.count + k * msgs.length by
    obtain ⟨c', h1, h2⟩ :=
      h k (Chunk.fromData M (msgs.flatMap C.encode)) rfl rfl rfl
    exact ⟨c', h1, by simpa [Chunk.length, Chunk.fromData] using h2⟩
  intro k
  induction k with
  | zero => intro c _ _ _; exact ⟨c, rfl, by simp⟩
  | succ k ih =>
    intro c hA hS hStore
    obtain ⟨c', h1, h2⟩ := ih
      { c with
        count := c.count + msgs.length
        iPos := c.iStore.length
        iFed := c.iFed ++ c.iStore } hA hS hStore
    refine ⟨c', ?_, ?_⟩
    · show (Chunk.iterate C c).bind _ = _
      rw [iterate_store C hdec hnil hne msgs c hA hS hStore]
      exact h1
    · rw [h2]
      show c.count + msgs.length + k * msgs.length =
        c.count + (k + 1) * msgs.length
      ring

/-- Witness for C10: three full passes over a two-message chunk leave the
counter at 6, not 2. -/
theorem C10_counter_accumulates_witness :
    (∀ (m : Nat) (rest : List Nat),
      natCodec.decode (natCodec.encode m ++ rest) = some (m, rest)) ∧
    natCodec.decode [] = none ∧
    (∀ m : Nat, natCodec.encode m ≠ []) ∧
    (∃ c' : Chunk Nat,
      Chunk.iterateN natCodec 3
        (Chunk.fromData Nat ([4, 5].flatMap natCodec.encode)) = .ok c' ∧
      c'.length = 3 * 2) :=
  ⟨fun m rest => by simp [natCodec], rfl, fun m => by simp [natCodec],
   C10_counter_accumulates natCodec (fun m rest => by simp [natCodec]) rfl
     (fun m => by simp [natCodec]) [4, 5] 3⟩

end StreamCorpus
